import Mathlib

/-!
Shallow embedding of the "niche signal scout" application.

Code under src/ consists of the HTTP route (src/app/api/search/route.ts,
function POST) and the client page component (HomePage, handleSubmit,
engagementScore, history effects).  The library module imported by the
route (parseSearchRequest, searchAcrossPlatforms, the scoring engine, the
ranker and the insight generator) is not part of src/; those definitions
are modelled from the spec and carry a doc comment saying so.

Numbers: engagement metrics and stored scores are modelled as rationals;
the scoring engine transform, which the spec defines with a natural
logarithm, is modelled over the reals.
-/

deriving instance DecidableEq for Except

namespace SignalScout

/-- PlatformId, the closed enum of supported platforms. -/
inductive Platform where
  | reddit
  | hackernews
  | devto
deriving DecidableEq

/-- Fixed platform precedence used by the ranker tie-break:
reddit before hackernews before devto. -/
def Platform.prec : Platform → Nat
  | .reddit => 0
  | .hackernews => 1
  | .devto => 2

/-- Untyped request payload as decoded from the HTTP body: each field is
present (and of the right primitive shape) or not. -/
structure Payload where
  query : Option String
  platforms : Option (List String)
deriving DecidableEq

/-- Validated search request. -/
structure SearchRequest where
  query : String
  platforms : List Platform
deriving DecidableEq

/-- A validation failure carrying its human-readable message. -/
structure ValidationErr where
  message : String
deriving DecidableEq

/-- JS String.prototype.trim: drop whitespace from both ends. -/
def jsTrim (s : String) : String :=
  String.mk (((s.data.dropWhile Char.isWhitespace).reverse.dropWhile
    Char.isWhitespace).reverse)

/-- Recognize one platform identifier string. -/
def parsePlatform : String → Option Platform
  | "reddit" => some Platform.reddit
  | "hackernews" => some Platform.hackernews
  | "devto" => some Platform.devto
  | _ => none

/-- Parse a list of platform identifier strings; an unknown identifier
fails the whole list. -/
def parsePlatformList : List String → Option (List Platform)
  | [] => some []
  | s :: rest =>
    match parsePlatform s with
    | none => none
    | some p => (parsePlatformList rest).map (fun ps => p :: ps)

/-- Collapse duplicates keeping the first occurrence of each element. -/
def dedupFirst : List Platform → List Platform
  | [] => []
  | p :: rest => p :: (dedupFirst rest).filter (fun q => q != p)

/-- Modelled from the spec: `parseSearchRequest` lives in the library
module absent from src/.  Per the validator contract, `query` must be a
string and non-empty after trimming; `platforms` must be a non-empty
array of recognized platform ids (unknown ids reject the whole request);
duplicates are collapsed. -/
def parseSearchRequest (p : Payload) : Except ValidationErr SearchRequest :=
  match p.query with
  | none => Except.error ⟨"Query must be a string"⟩
  | some q =>
    if jsTrim q = "" then Except.error ⟨"Query must be a non-empty string"⟩
    else
      match p.platforms with
      | none => Except.error ⟨"Platforms must be a non-empty array"⟩
      | some ps =>
        if ps.isEmpty then Except.error ⟨"Platforms must be a non-empty array"⟩
        else
          match parsePlatformList ps with
          | none => Except.error ⟨"Platforms must contain only supported platform ids"⟩
          | some pls => Except.ok ⟨jsTrim q, dedupFirst pls⟩

/-- One normalized item as returned by an adapter: the common Result
shape minus the centrally computed score. -/
structure RawItem where
  id : String
  title : String
  url : String
  excerpt : String
  author : Option String
  metadata : List (String × ℚ)
deriving DecidableEq

/-- A scored, normalized result. -/
structure Result where
  id : String
  platform : Platform
  title : String
  url : String
  excerpt : String
  author : Option String
  metadata : List (String × ℚ)
  score : ℚ
deriving DecidableEq

/-- Response meta block. -/
structure Meta where
  query : String
  generatedAt : String
  platforms : List Platform
  recommendedAngles : List String
  nextPrompts : List String
deriving DecidableEq

/-- The response envelope. -/
structure SearchResponse where
  results : List Result
  meta : Meta
deriving DecidableEq

/-- Adapter failure causes, per the error taxonomy. -/
inductive AdapterCause where
  | timeout
  | rateLimited
  | transport
  | malformedResponse
  | emptyCredentials
deriving DecidableEq

/-- An adapter failure, tagged with its platform. -/
structure AdapterError where
  platform : Platform
  cause : AdapterCause
deriving DecidableEq

/-- Failures the pipeline itself can surface. -/
inductive PipelineErr where
  | aggregation (failures : List AdapterError)
  | internal (msg : String)
deriving DecidableEq

/-- The human-readable message carried by a pipeline failure. -/
def PipelineErr.message : PipelineErr → String
  | .aggregation _ => "All selected platforms failed to return results"
  | .internal m => m

/-- Attach the platform tag and the centrally computed score to an
adapter item. -/
def toResult (scoreFn : Platform → List (String × ℚ) → ℚ) (p : Platform)
    (item : RawItem) : Result :=
  { id := item.id
    platform := p
    title := item.title
    url := item.url
    excerpt := item.excerpt
    author := item.author
    metadata := item.metadata
    score := scoreFn p item.metadata }

/-- Ranker order on index-tagged results: higher score first; on equal
scores, lower platform precedence first; on equal precedence, the
original merged-list position decides (stability). -/
def rankRel : (Nat × Result) → (Nat × Result) → Prop := fun a b =>
  b.2.score < a.2.score ∨
    (a.2.score = b.2.score ∧
      (a.2.platform.prec < b.2.platform.prec ∨
        (a.2.platform.prec = b.2.platform.prec ∧ a.1 ≤ b.1)))

instance : DecidableRel rankRel := fun a b =>
  inferInstanceAs (Decidable (b.2.score < a.2.score ∨
    (a.2.score = b.2.score ∧
      (a.2.platform.prec < b.2.platform.prec ∨
        (a.2.platform.prec = b.2.platform.prec ∧ a.1 ≤ b.1)))))

instance : IsTotal (Nat × Result) rankRel where
  total a b := by
    rcases lt_trichotomy a.2.score b.2.score with h | h | h
    · exact Or.inr (Or.inl h)
    · rcases Nat.lt_trichotomy a.2.platform.prec b.2.platform.prec with h2 | h2 | h2
      · exact Or.inl (Or.inr ⟨h, Or.inl h2⟩)
      · rcases Nat.le_total a.1 b.1 with h3 | h3
        · exact Or.inl (Or.inr ⟨h, Or.inr ⟨h2, h3⟩⟩)
        · exact Or.inr (Or.inr ⟨h.symm, Or.inr ⟨h2.symm, h3⟩⟩)
      · exact Or.inr (Or.inr ⟨h.symm, Or.inl h2⟩)
    · exact Or.inl (Or.inl h)

instance : IsTrans (Nat × Result) rankRel where
  trans a b c hab hbc := by
    rcases hab with h1 | ⟨e1, h1⟩
    · rcases hbc with h2 | ⟨e2, h2⟩
      · exact Or.inl (lt_trans h2 h1)
      · exact Or.inl (e2 ▸ h1)
    · rcases hbc with h2 | ⟨e2, h2⟩
      · exact Or.inl (e1 ▸ h2)
      · refine Or.inr ⟨e1.trans e2, ?_⟩
        rcases h1 with h1 | ⟨p1, i1⟩
        · rcases h2 with h2 | ⟨p2, _⟩
          · exact Or.inl (Nat.lt_trans h1 h2)
          · exact Or.inl (p2 ▸ h1)
        · rcases h2 with h2 | ⟨p2, i2⟩
          · exact Or.inl (p1 ▸ h2)
          · exact Or.inr ⟨p1.trans p2, Nat.le_trans i1 i2⟩

/-- Modelled from the spec: the Ranker, absent from src/.  Stable sort of
the index-tagged merged list by descending score with the fixed
platform-precedence and original-order tie-breaks. -/
def rankIndexed (rs : List Result) : List (Nat × Result) :=
  rs.enum.insertionSort rankRel

/-- Modelled from the spec: the Ranker output as a plain result list. -/
def rank (rs : List Result) : List Result :=
  (rankIndexed rs).map Prod.snd

/-- Modelled from the spec: the Insight Generator angle list — theme
lines drawn from top-ranked titles plus generic strategic framings
parameterized by the query; deterministic and bounded. -/
def recommendedAngles (query : String) (ranked : List Result) : List String :=
  List.take 5
    (((ranked.take 2).map (fun r => "Explore the theme behind: " ++ r.title)) ++
      ["Underserved segment within " ++ query,
        "Pricing objections around " ++ query,
        "Emerging tooling gaps in " ++ query])

/-- Modelled from the spec: the Insight Generator follow-up prompts —
questions combining the query with detected material; deterministic and
bounded. -/
def nextPrompts (query : String) (ranked : List Result) : List String :=
  List.take 5
    (((ranked.take 2).map
        (fun r => "What objections appear in the thread " ++ r.title ++ "?")) ++
      ["Which niche communities discuss " ++ query ++ "?",
        "What would make early adopters pay for " ++ query ++ "?",
        "Which adjacent problems cluster with " ++ query ++ "?"])

/-- The adapter failures among the platforms selected by a request. -/
def adapterFailures (adapters : Platform → Except AdapterError (List RawItem))
    (req : SearchRequest) : List AdapterError :=
  req.platforms.filterMap (fun p =>
    match adapters p with
    | Except.error e => some e
    | Except.ok _ => none)

/-- The merge of all normalized results from successful adapters, scored, in
fixed per-platform order (a failed adapter contributes nothing). -/
def mergedResults (scoreFn : Platform → List (String × ℚ) → ℚ)
    (adapters : Platform → Except AdapterError (List RawItem))
    (req : SearchRequest) : List Result :=
  (req.platforms.map (fun p =>
    match adapters p with
    | Except.ok items => items.map (toResult scoreFn p)
    | Except.error _ => [])).flatten

/-- Modelled from the spec: `searchAcrossPlatforms`, the Orchestrator and
downstream pipeline, absent from src/.  Adapter outcomes are passed as a
function so no completion order exists in the model; the pipeline fails
only when every selected adapter failed, otherwise it merges successes,
scores, ranks, synthesizes insights and stamps `generatedAt` with the
assembly time `now`. -/
def searchAcrossPlatforms (scoreFn : Platform → List (String × ℚ) → ℚ)
    (adapters : Platform → Except AdapterError (List RawItem))
    (now : String) (req : SearchRequest) : Except PipelineErr SearchResponse :=
  if (adapterFailures adapters req).length = req.platforms.length then
    Except.error (PipelineErr.aggregation (adapterFailures adapters req))
  else
    Except.ok
      { results := rank (mergedResults scoreFn adapters req)
        meta :=
          { query := req.query
            generatedAt := now
            platforms := req.platforms
            recommendedAngles :=
              recommendedAngles req.query (rank (mergedResults scoreFn adapters req))
            nextPrompts :=
              nextPrompts req.query (rank (mergedResults scoreFn adapters req)) } }

/-- HTTP response body produced by the route. -/
inductive Body where
  | json (resp : SearchResponse)
  | error (message : String)
deriving DecidableEq

/-- Status plus body, as produced by NextResponse.json. -/
structure HttpResponse where
  status : Nat
  body : Body
deriving DecidableEq

/-- The POST handler of src/app/api/search/route.ts: parse the payload,
run the pipeline, answer 200 with the data on success and 400 with the
error message on any caught failure.  The Bool records whether
`searchAcrossPlatforms` was invoked. -/
def POSTtraced (scoreFn : Platform → List (String × ℚ) → ℚ)
    (adapters : Platform → Except AdapterError (List RawItem))
    (now : String) (payload : Payload) : HttpResponse × Bool :=
  match parseSearchRequest payload with
  | Except.error e => (⟨400, Body.error e.message⟩, false)
  | Except.ok req =>
    match searchAcrossPlatforms scoreFn adapters now req with
    | Except.error err => (⟨400, Body.error err.message⟩, true)
    | Except.ok data => (⟨200, Body.json data⟩, true)

/-- The POST handler, response only. -/
def POST (scoreFn : Platform → List (String × ℚ) → ℚ)
    (adapters : Platform → Except AdapterError (List RawItem))
    (now : String) (payload : Payload) : HttpResponse :=
  (POSTtraced scoreFn adapters now payload).1

/-- Client-error status range. -/
def isClientError (s : Nat) : Prop := 400 ≤ s ∧ s < 500

/-- Server-error status range. -/
def isServerError (s : Nat) : Prop := 500 ≤ s ∧ s < 600

instance (s : Nat) : Decidable (isClientError s) := by
  unfold isClientError; exact inferInstance

instance (s : Nat) : Decidable (isServerError s) := by
  unfold isServerError; exact inferInstance

/-- Modelled from the spec: the Scoring Engine metric keys — the primary
engagement metric of each platform. -/
def Platform.primaryKey : Platform → String
  | .reddit => "upvotes"
  | .hackernews => "points"
  | .devto => "reactions"

/-- Modelled from the spec: the secondary engagement metric, comments on
every platform. -/
def Platform.secondaryKey : Platform → String := fun _ => "comments"

/-- Modelled from the spec: fixed per-platform normalization constants
scaling the transformed value onto the common 0-10 band. -/
def Platform.normConst : Platform → ℚ
  | .reddit => 13 / 10
  | .hackernews => 14 / 10
  | .devto => 8 / 5

/-- Read one metric from the metadata map: an absent key is 0 and a
negative raw value is clamped to 0. -/
def metricValue (m : List (String × ℚ)) (key : String) : ℚ :=
  max 0 ((m.lookup key).getD 0)

/-- Modelled from the spec: the weighted sum of the primary (weight 0.7)
and secondary (weight 0.3) metrics. -/
def weightedEngagement (p : Platform) (m : List (String × ℚ)) : ℚ :=
  (7 / 10) * metricValue m p.primaryKey + (3 / 10) * metricValue m p.secondaryKey

/-- Round to one decimal place, JS style: Math.round (half toward plus
infinity) of ten times the value, divided by ten. -/
noncomputable def roundTo1 (x : ℝ) : ℝ := ((round (10 * x) : ℤ) : ℝ) / 10

/-- Modelled from the spec: the Scoring Engine — weighted metric sum,
diminishing-returns transform (natural log of one plus the value),
per-platform scaling, rounding to one decimal place.  The float
arithmetic of the source is modelled over the reals. -/
noncomputable def engineScore (p : Platform) (m : List (String × ℚ)) : ℝ :=
  roundTo1 ((p.normConst : ℝ) * Real.log (1 + (weightedEngagement p m : ℝ)))

/-- A client-side history entry as built by handleSubmit. -/
structure HistoryEntry where
  query : String
  timestamp : String
  platforms : List Platform
  summary : Meta
deriving DecidableEq

/-- What localStorage may hold under the history key: a well-formed
serialized entry list, or an unparsable string. -/
inductive StoredVal where
  | good (entries : List HistoryEntry)
  | corrupt
deriving DecidableEq

/-- The browser storage visible to the component, instrumented with a
read counter. -/
structure ClientStore where
  contents : Option StoredVal
  reads : Nat
deriving DecidableEq

/-- The save-on-change effect of HomePage: persist the first 8 entries of
the current history. -/
def saveEffect (s : ClientStore) (hist : List HistoryEntry) : ClientStore :=
  { s with contents := some (StoredVal.good (hist.take 8)) }

/-- Mounting HomePage: the load effect reads storage once (hydrating the
history state from a good value, removing a corrupt one), and the
save-on-change effect then runs for the initial state and again whenever
the load changed the history state. -/
def mountComponent (s : ClientStore) : ClientStore × List HistoryEntry :=
  let s1 : ClientStore := { s with reads := s.reads + 1 }
  match s.contents with
  | none => (saveEffect s1 [], [])
  | some StoredVal.corrupt => (saveEffect { s1 with contents := none } [], [])
  | some (StoredVal.good entries) => (saveEffect (saveEffect s1 []) entries, entries)

/-- A later change of the history state: the save-on-change effect runs
on the new value. -/
def changeHistory (s : ClientStore) (hist : List HistoryEntry) :
    ClientStore × List HistoryEntry :=
  (saveEffect s hist, hist)

/-- A whole client session: mount once, then any sequence of history
state changes. -/
def runClient (s0 : ClientStore) (changes : List (List HistoryEntry)) :
    ClientStore × List HistoryEntry :=
  changes.foldl (fun acc h => changeHistory acc.1 h) (mountComponent s0)

/-- The history entry handleSubmit builds from a response meta block. -/
def toHistoryEntry (m : Meta) : HistoryEntry :=
  ⟨m.query, m.generatedAt, m.platforms, m⟩

/-- The history update on a successful submit: the new entry first, every
older entry with the same query removed. -/
def updateHistory (m : Meta) (prev : List HistoryEntry) : List HistoryEntry :=
  toHistoryEntry m :: prev.filter (fun e => e.query != m.query)

/-- The page state touched by handleSubmit. -/
structure UiState where
  query : String
  selectedPlatforms : List Platform
  data : Option SearchResponse
  errorMsg : Option String
  history : List HistoryEntry
deriving DecidableEq

/-- Outcome of the fetch to /api/search: a parsed SearchResponse, or a
failure carrying the error string of the body when one was present. -/
inductive FetchOutcome where
  | success (resp : SearchResponse)
  | failure (errMsg : Option String)
deriving DecidableEq

/-- The handleSubmit callback of HomePage: guard on a blank trimmed query
and on an empty platform selection without fetching; otherwise fetch and
either install the response (updating the history) or surface the error
message.  The Bool records whether the fetch was issued. -/
def handleSubmit (st : UiState) (outcome : FetchOutcome) : UiState × Bool :=
  if jsTrim st.query = "" then
    ({ st with errorMsg := some "Enter a topic to scout for signals." }, false)
  else if st.selectedPlatforms.isEmpty then
    ({ st with errorMsg := some "Select at least one platform." }, false)
  else
    match outcome with
    | FetchOutcome.success resp =>
      ({ st with errorMsg := none
                 data := some resp
                 history := updateHistory resp.meta st.history }, true)
    | FetchOutcome.failure m =>
      ({ st with errorMsg := some (m.getD "Agent failed to scout signals.") }, true)

/-- Sum of the result scores, as the reduce in engagementScore folds it. -/
def sumScores (rs : List Result) : ℚ :=
  rs.foldl (fun sum r => sum + r.score) 0

/-- The arithmetic mean of the result scores. -/
def meanScore (rs : List Result) : ℚ :=
  sumScores rs / rs.length

/-- The engagementScore memo of HomePage: 0 without data or results,
otherwise Math.round of ten times the mean score, divided by ten.
Math.round is floor of the value plus one half. -/
def engagementScore (data : Option SearchResponse) : ℚ :=
  match data with
  | none => 0
  | some d =>
    if d.results.length = 0 then 0
    else ((⌊(sumScores d.results / d.results.length) * 10 + 1 / 2⌋ : ℤ) : ℚ) / 10

/-! Theorems. -/

/-- Reduction of POSTtraced once the payload fails validation. -/
theorem POSTtraced_parse_error
    (scoreFn : Platform → List (String × ℚ) → ℚ)
    (adapters : Platform → Except AdapterError (List RawItem))
    (now : String) (payload : Payload) (e : ValidationErr)
    (h : parseSearchRequest payload = Except.error e) :
    POSTtraced scoreFn adapters now payload = (⟨400, Body.error e.message⟩, false) := by
  unfold POSTtraced
  rw [h]

/-- Reduction of POSTtraced once the payload parses. -/
theorem POSTtraced_parse_ok
    (scoreFn : Platform → List (String × ℚ) → ℚ)
    (adapters : Platform → Except AdapterError (List RawItem))
    (now : String) (payload : Payload) (req : SearchRequest)
    (h : parseSearchRequest payload = Except.ok req) :
    POSTtraced scoreFn adapters now payload =
      (match searchAcrossPlatforms scoreFn adapters now req with
        | Except.error err => (⟨400, Body.error err.message⟩, true)
        | Except.ok data => (⟨200, Body.json data⟩, true)) := by
  unfold POSTtraced
  rw [h]

/-- C2: a payload rejected by parseSearchRequest makes POST answer the
validation error directly, without ever invoking searchAcrossPlatforms
(the invocation flag stays false). -/
theorem post_validation_short_circuits
    (scoreFn : Platform → List (String × ℚ) → ℚ)
    (adapters : Platform → Except AdapterError (List RawItem))
    (now : String) (payload : Payload) (e : ValidationErr)
    (h : parseSearchRequest payload = Except.error e) :
    POSTtraced scoreFn adapters now payload = (⟨400, Body.error e.message⟩, false) := by
  unfold POSTtraced
  rw [h]

/-- A payload whose query is blank after trimming. -/
def blankQueryPayload : Payload := ⟨some "   ", some ["reddit"]⟩

/-- Witness for C2 at a concrete blank-query payload. -/
theorem post_validation_short_circuits_witness :
    POSTtraced (fun _ _ => 0) (fun p => Except.error ⟨p, AdapterCause.transport⟩)
        "t0" blankQueryPayload
      = (⟨400, Body.error "Query must be a non-empty string"⟩, false) :=
  post_validation_short_circuits _ _ _ _ _ (by decide)

/-- A score function ignoring its input; stands in for any engine. -/
def zeroScore : Platform → List (String × ℚ) → ℚ := fun _ _ => 0

/-- Adapters that all fail with a transport error. -/
def failingAdapters : Platform → Except AdapterError (List RawItem) :=
  fun p => Except.error ⟨p, AdapterCause.transport⟩

/-- A payload that validates successfully. -/
def validPayload : Payload := ⟨some "ai agents", some ["reddit"]⟩

/-- C1 counterexample: on a valid payload whose pipeline run fails with
an AggregationError (not a ValidationError), POST answers status 400 — a
client-error status, not the server-error outcome the claim requires for
non-validation failures. -/
theorem post_pipeline_failure_not_server_error :
    parseSearchRequest validPayload = Except.ok ⟨"ai agents", [Platform.reddit]⟩ ∧
    searchAcrossPlatforms zeroScore failingAdapters "t0" ⟨"ai agents", [Platform.reddit]⟩
      = Except.error (PipelineErr.aggregation [⟨Platform.reddit, AdapterCause.transport⟩]) ∧
    (POST zeroScore failingAdapters "t0" validPayload).status = 400 ∧
    ¬ isServerError (POST zeroScore failingAdapters "t0" validPayload).status := by
  refine ⟨by decide, by decide, by decide, by decide⟩

/-- C1 amended: POST maps every failure — validation or otherwise — to
the same client-error status 400 and never produces a server-error
status; successful runs answer 200. -/
theorem post_all_failures_client_status
    (scoreFn : Platform → List (String × ℚ) → ℚ)
    (adapters : Platform → Except AdapterError (List RawItem))
    (now : String) (payload : Payload) :
    ((POST scoreFn adapters now payload).status = 200 ∨
      ((POST scoreFn adapters now payload).status = 400 ∧
        isClientError (POST scoreFn adapters now payload).status)) ∧
    ¬ isServerError (POST scoreFn adapters now payload).status := by
  unfold POST
  cases hp : parseSearchRequest payload with
  | error e =>
    rw [POSTtraced_parse_error scoreFn adapters now payload e hp]
    refine ⟨Or.inr ⟨rfl, ?_⟩, ?_⟩
    · show isClientError 400
      decide
    · show ¬ isServerError 400
      decide
  | ok req =>
    rw [POSTtraced_parse_ok scoreFn adapters now payload req hp]
    cases hs : searchAcrossPlatforms scoreFn adapters now req with
    | error err =>
      refine ⟨Or.inr ⟨rfl, ?_⟩, ?_⟩
      · show isClientError 400
        decide
      · show ¬ isServerError 400
        decide
    | ok data =>
      refine ⟨Or.inl rfl, ?_⟩
      show ¬ isServerError 200
      decide

/-- Every message a validation failure can carry is non-empty. -/
theorem parse_error_msg_ne (p : Payload) (e : ValidationErr)
    (h : parseSearchRequest p = Except.error e) : e.message ≠ "" := by
  unfold parseSearchRequest at h
  repeat' split at h
  all_goals first
    | (injection h with h2; subst h2; decide)
    | exact Except.noConfusion h

/-- Every message a pipeline failure can carry is non-empty. -/
theorem pipeline_error_msg_ne
    (scoreFn : Platform → List (String × ℚ) → ℚ)
    (adapters : Platform → Except AdapterError (List RawItem))
    (now : String) (req : SearchRequest) (err : PipelineErr)
    (h : searchAcrossPlatforms scoreFn adapters now req = Except.error err) :
    err.message ≠ "" := by
  unfold searchAcrossPlatforms at h
  split at h
  · injection h with h2
    subst h2
    show "All selected platforms failed to return results" ≠ ""
    decide
  · exact Except.noConfusion h

/-- C5: whenever POST fails (validation failure or pipeline failure such
as total adapter failure), the response body is an error object whose
message string is non-empty and is exactly the message of the failure
that was thrown. -/
theorem post_failure_body_message
    (scoreFn : Platform → List (String × ℚ) → ℚ)
    (adapters : Platform → Except AdapterError (List RawItem))
    (now : String) (payload : Payload)
    (h : (POST scoreFn adapters now payload).status ≠ 200) :
    ∃ m, (POST scoreFn adapters now payload).body = Body.error m ∧ m ≠ "" ∧
      ((∃ e, parseSearchRequest payload = Except.error e ∧ e.message = m) ∨
        (∃ req err, parseSearchRequest payload = Except.ok req ∧
          searchAcrossPlatforms scoreFn adapters now req = Except.error err ∧
          err.message = m)) := by
  unfold POST at h ⊢
  cases hp : parseSearchRequest payload with
  | error e =>
    rw [POSTtraced_parse_error scoreFn adapters now payload e hp]
    exact ⟨e.message, rfl, parse_error_msg_ne payload e hp, Or.inl ⟨e, rfl, rfl⟩⟩
  | ok req =>
    rw [POSTtraced_parse_ok scoreFn adapters now payload req hp] at h ⊢
    cases hs : searchAcrossPlatforms scoreFn adapters now req with
    | error err =>
      exact ⟨err.message, rfl, pipeline_error_msg_ne _ _ _ _ _ hs,
        Or.inr ⟨req, err, rfl, hs, rfl⟩⟩
    | ok data =>
      rw [hs] at h
      exact absurd rfl h

/-- A payload with no query and no platforms field. -/
def emptyPayload : Payload := ⟨none, none⟩

/-- Witness for C5 at a concrete invalid payload. -/
theorem post_failure_body_message_witness :
    ∃ m, (POST zeroScore failingAdapters "t0" emptyPayload).body = Body.error m ∧
      m ≠ "" ∧
      ((∃ e, parseSearchRequest emptyPayload = Except.error e ∧ e.message = m) ∨
        (∃ req err, parseSearchRequest emptyPayload = Except.ok req ∧
          searchAcrossPlatforms zeroScore failingAdapters "t0" req = Except.error err ∧
          err.message = m)) :=
  post_failure_body_message zeroScore failingAdapters "t0" emptyPayload (by decide)

/-- C8: when the query trims to the empty string or no platform is
selected, handleSubmit issues no fetch, leaves the displayed data
unchanged, and sets a non-empty user-visible error message. -/
theorem submit_guard_blocks_fetch (st : UiState) (outcome : FetchOutcome)
    (h : jsTrim st.query = "" ∨ st.selectedPlatforms = []) :
    (handleSubmit st outcome).2 = false ∧
    (handleSubmit st outcome).1.data = st.data ∧
    ∃ m, (handleSubmit st outcome).1.errorMsg = some m ∧ m ≠ "" := by
  by_cases hq : jsTrim st.query = ""
  · unfold handleSubmit
    rw [if_pos hq]
    exact ⟨rfl, rfl, "Enter a topic to scout for signals.", rfl, by decide⟩
  · have hp : st.selectedPlatforms = [] := h.resolve_left hq
    have hpe : st.selectedPlatforms.isEmpty = true := by rw [hp]; rfl
    unfold handleSubmit
    rw [if_neg hq, if_pos hpe]
    exact ⟨rfl, rfl, "Select at least one platform.", rfl, by decide⟩

/-- A page state whose query is blank. -/
def blankQueryState : UiState := ⟨"   ", [Platform.reddit], none, none, []⟩

/-- Witness for C8 at a concrete blank-query state. -/
theorem submit_guard_blocks_fetch_witness :
    (handleSubmit blankQueryState (FetchOutcome.failure none)).2 = false ∧
    (handleSubmit blankQueryState (FetchOutcome.failure none)).1.data
      = blankQueryState.data ∧
    ∃ m, (handleSubmit blankQueryState (FetchOutcome.failure none)).1.errorMsg
      = some m ∧ m ≠ "" :=
  submit_guard_blocks_fetch blankQueryState (FetchOutcome.failure none)
    (Or.inl (by decide))

/-- C10: a successful submission replaces the history with the new entry
first, removes every older entry whose query matches the response, and so
preserves query-uniqueness of the history entries. -/
theorem submit_success_history_unique (st : UiState) (resp : SearchResponse)
    (hq : ¬ jsTrim st.query = "") (hp : st.selectedPlatforms ≠ []) :
    (handleSubmit st (FetchOutcome.success resp)).1.history
        = updateHistory resp.meta st.history ∧
    ((handleSubmit st (FetchOutcome.success resp)).1.history).head?
        = some (toHistoryEntry resp.meta) ∧
    (∀ e ∈ ((handleSubmit st (FetchOutcome.success resp)).1.history).tail,
        e.query ≠ resp.meta.query) ∧
    (st.history.Pairwise (fun a b => a.query ≠ b.query) →
      ((handleSubmit st (FetchOutcome.success resp)).1.history).Pairwise
        (fun a b => a.query ≠ b.query)) := by
  have hpe : ¬ st.selectedPlatforms.isEmpty = true := by
    simpa [List.isEmpty_iff] using hp
  have hred : (handleSubmit st (FetchOutcome.success resp)).1.history
      = updateHistory resp.meta st.history := by
    unfold handleSubmit
    rw [if_neg hq, if_neg hpe]
  refine ⟨hred, ?_, ?_, ?_⟩ <;> rw [hred]
  · rfl
  · intro e he
    simpa using (List.mem_filter.mp he).2
  · intro hpw
    refine List.Pairwise.cons ?_ (hpw.filter _)
    intro e he
    have h2 : e.query ≠ resp.meta.query := by
      simpa using (List.mem_filter.mp he).2
    exact h2.symm

/-- A page state with two distinct-query history entries. -/
def twoEntryState : UiState :=
  ⟨"ai agents", [Platform.reddit], none, none,
    [⟨"old query", "t1", [Platform.reddit], ⟨"old query", "t1", [Platform.reddit], [], []⟩⟩,
      ⟨"other", "t2", [Platform.devto], ⟨"other", "t2", [Platform.devto], [], []⟩⟩]⟩

/-- A response whose query collides with the first stored entry. -/
def collidingResp : SearchResponse :=
  ⟨[], ⟨"old query", "t3", [Platform.reddit], [], []⟩⟩

/-- Witness for C10 at a concrete state and response. -/
theorem submit_success_history_unique_witness :
    (handleSubmit twoEntryState (FetchOutcome.success collidingResp)).1.history
        = updateHistory collidingResp.meta twoEntryState.history ∧
    ((handleSubmit twoEntryState (FetchOutcome.success collidingResp)).1.history).head?
        = some (toHistoryEntry collidingResp.meta) ∧
    (∀ e ∈ ((handleSubmit twoEntryState
        (FetchOutcome.success collidingResp)).1.history).tail,
        e.query ≠ collidingResp.meta.query) ∧
    (twoEntryState.history.Pairwise (fun a b => a.query ≠ b.query) →
      ((handleSubmit twoEntryState
          (FetchOutcome.success collidingResp)).1.history).Pairwise
        (fun a b => a.query ≠ b.query)) :=
  submit_success_history_unique twoEntryState collidingResp (by decide) (by decide)

/-- C9: the displayed average engagement score is 0 without a response
or with an empty results list, and otherwise equals the arithmetic mean
of the result scores rounded to one decimal place. -/
theorem engagement_score_mean :
    engagementScore none = 0 ∧
    (∀ d : SearchResponse, d.results = [] → engagementScore (some d) = 0) ∧
    (∀ d : SearchResponse, d.results ≠ [] →
      engagementScore (some d) = ((round (meanScore d.results * 10) : ℤ) : ℚ) / 10) := by
  refine ⟨rfl, ?_, ?_⟩
  · intro d hd
    simp [engagementScore, hd]
  · intro d hd
    have hlen : d.results.length ≠ 0 := by
      simpa [List.length_eq_zero] using hd
    simp only [engagementScore]
    rw [if_neg hlen]
    simp only [meanScore, round_eq]

/-- A response with two scored results. -/
def twoResultResp : SearchResponse :=
  ⟨[⟨"reddit:a", Platform.reddit, "A", "u", "x", none, [], 3⟩,
      ⟨"hackernews:b", Platform.hackernews, "B", "u", "x", none, [], 4⟩],
    ⟨"ai agents", "t0", [Platform.reddit, Platform.hackernews], [], []⟩⟩

/-- Witness for C9 at a concrete two-result response. -/
theorem engagement_score_mean_witness :
    twoResultResp.results ≠ [] ∧
    engagementScore (some twoResultResp)
      = ((round (meanScore twoResultResp.results * 10) : ℤ) : ℚ) / 10 :=
  ⟨by decide, engagement_score_mean.2.2 twoResultResp (by decide)⟩

/-- Mounting reads storage exactly once and leaves a stored list of at
most 8 entries. -/
theorem mount_reads_once (s : ClientStore) :
    (mountComponent s).1.reads = s.reads + 1 ∧
    ∃ l, (mountComponent s).1.contents = some (StoredVal.good l) ∧ l.length ≤ 8 := by
  unfold mountComponent
  cases hc : s.contents with
  | none => exact ⟨rfl, [], rfl, by decide⟩
  | some v =>
    cases v with
    | corrupt => exact ⟨rfl, [], rfl, by decide⟩
    | good entries =>
      refine ⟨rfl, entries.take 8, rfl, ?_⟩
      rw [List.length_take]
      exact min_le_left _ _

/-- The change steps never read storage and keep the stored list bounded
by 8 entries. -/
theorem changes_fold_inv (changes : List (List HistoryEntry))
    (acc : ClientStore × List HistoryEntry)
    (hc : ∃ l, acc.1.contents = some (StoredVal.good l) ∧ l.length ≤ 8) :
    (changes.foldl (fun a h => changeHistory a.1 h) acc).1.reads = acc.1.reads ∧
    ∃ l, (changes.foldl (fun a h => changeHistory a.1 h) acc).1.contents
        = some (StoredVal.good l) ∧ l.length ≤ 8 := by
  induction changes generalizing acc with
  | nil => exact ⟨rfl, hc⟩
  | cons c rest ih =>
    simp only [List.foldl_cons]
    have hstep : ∃ l, (changeHistory acc.1 c).1.contents
        = some (StoredVal.good l) ∧ l.length ≤ 8 := by
      refine ⟨c.take 8, rfl, ?_⟩
      rw [List.length_take]
      exact min_le_left _ _
    exact (ih (changeHistory acc.1 c) hstep)

/-- C6: in every client session — mount followed by any sequence of
history state changes — storage is read exactly once (at mount), and
after the mount and after every change the persisted history list holds
at most 8 entries. -/
theorem client_history_lifecycle (s0 : ClientStore)
    (changes : List (List HistoryEntry)) :
    ((runClient s0 changes).1.reads = s0.reads + 1 ∧
      ∃ l, (runClient s0 changes).1.contents = some (StoredVal.good l) ∧
        l.length ≤ 8) ∧
    ∀ n, (runClient s0 (changes.take n)).1.reads = s0.reads + 1 ∧
      ∃ l, (runClient s0 (changes.take n)).1.contents = some (StoredVal.good l) ∧
        l.length ≤ 8 := by
  have base : ∀ cs : List (List HistoryEntry),
      (runClient s0 cs).1.reads = s0.reads + 1 ∧
      ∃ l, (runClient s0 cs).1.contents = some (StoredVal.good l) ∧ l.length ≤ 8 := by
    intro cs
    have hm := mount_reads_once s0
    have hf := changes_fold_inv cs (mountComponent s0) hm.2
    exact ⟨hf.1.trans hm.1, hf.2⟩
  exact ⟨base changes, fun n => base (changes.take n)⟩

/-- C7: two pipeline runs on identical request and identical adapter
outcomes agree everywhere except the generatedAt stamp — the first run
equals the second with its generatedAt replaced, so results,
recommendedAngles and nextPrompts are identical. -/
theorem pipeline_two_run_determinism
    (scoreFn : Platform → List (String × ℚ) → ℚ)
    (adapters : Platform → Except AdapterError (List RawItem))
    (req : SearchRequest) (t1 t2 : String) :
    searchAcrossPlatforms scoreFn adapters t1 req =
      Except.map (fun r => { r with meta := { r.meta with generatedAt := t1 } })
        (searchAcrossPlatforms scoreFn adapters t2 req) := by
  unfold searchAcrossPlatforms
  by_cases hc : (adapterFailures adapters req).length = req.platforms.length
  · rw [if_pos hc, if_pos hc]
    rfl
  · rw [if_neg hc, if_neg hc]
    rfl

/-- C3: a successful pipeline run returns exactly the ranked merged
list: the index-tagged merge sorted by rankRel — score descending, ties
by the fixed platform precedence (reddit, hackernews, devto) and then by
original merged position — where the sorted list is a permutation of the
index-tagged merge, so the tags are the original positions. -/
theorem pipeline_results_ranked
    (scoreFn : Platform → List (String × ℚ) → ℚ)
    (adapters : Platform → Except AdapterError (List RawItem))
    (now : String) (req : SearchRequest) (resp : SearchResponse)
    (h : searchAcrossPlatforms scoreFn adapters now req = Except.ok resp) :
    resp.results = (rankIndexed (mergedResults scoreFn adapters req)).map Prod.snd ∧
    List.Sorted rankRel (rankIndexed (mergedResults scoreFn adapters req)) ∧
    List.Perm (rankIndexed (mergedResults scoreFn adapters req))
      (mergedResults scoreFn adapters req).enum := by
  refine ⟨?_, ?_, ?_⟩
  · unfold searchAcrossPlatforms at h
    split at h
    · exact Except.noConfusion h
    · injection h with h2
      subst h2
      rfl
  · unfold rankIndexed
    exact List.sorted_insertionSort rankRel _
  · unfold rankIndexed
    exact List.perm_insertionSort rankRel _

/-- A simple score function reading one metric, for concrete runs. -/
def demoScore : Platform → List (String × ℚ) → ℚ := fun _ m =>
  (m.lookup "upvotes").getD 0

/-- Concrete adapter outcomes: two reddit items, one hackernews item,
devto times out. -/
def demoAdapters : Platform → Except AdapterError (List RawItem) := fun p =>
  match p with
  | Platform.reddit =>
    Except.ok
      [⟨"reddit:a", "Alpha", "u1", "x", none, [("upvotes", 4), ("comments", 1)]⟩,
        ⟨"reddit:b", "Beta", "u2", "x", none, [("upvotes", 5)]⟩]
  | Platform.hackernews =>
    Except.ok [⟨"hackernews:c", "Gamma", "u3", "x", none, [("points", 5), ("upvotes", 4)]⟩]
  | Platform.devto => Except.error ⟨Platform.devto, AdapterCause.timeout⟩

/-- A concrete validated request selecting all three platforms. -/
def demoReq : SearchRequest :=
  ⟨"ai agents", [Platform.reddit, Platform.hackernews, Platform.devto]⟩

/-- The response of the concrete pipeline run. -/
def demoResp : SearchResponse :=
  match searchAcrossPlatforms demoScore demoAdapters "t0" demoReq with
  | Except.ok r => r
  | Except.error _ => ⟨[], ⟨"", "", [], [], []⟩⟩

/-- Witness for C3 at the concrete pipeline run. -/
theorem pipeline_results_ranked_witness :
    searchAcrossPlatforms demoScore demoAdapters "t0" demoReq = Except.ok demoResp ∧
    (demoResp.results
        = (rankIndexed (mergedResults demoScore demoAdapters demoReq)).map Prod.snd ∧
      List.Sorted rankRel (rankIndexed (mergedResults demoScore demoAdapters demoReq)) ∧
      List.Perm (rankIndexed (mergedResults demoScore demoAdapters demoReq))
        (mergedResults demoScore demoAdapters demoReq).enum) :=
  ⟨by decide,
    pipeline_results_ranked demoScore demoAdapters "t0" demoReq demoResp (by decide)⟩

/-- C4: every score the Scoring Engine produces is a non-negative real
of the form k/10 for a non-negative integer k — finite, non-negative and
rounded to one decimal place — and a result with no metric values at all
scores exactly 0 (absent metrics read as 0, negatives are clamped before
the transform). -/
theorem engine_score_rounded_nonneg :
    (∀ (p : Platform) (m : List (String × ℚ)),
      ∃ k : ℤ, 0 ≤ k ∧ engineScore p m = (k : ℝ) / 10) ∧
    (∀ p : Platform, engineScore p [] = 0) := by
  constructor
  · intro p m
    refine ⟨round (10 * ((p.normConst : ℝ) *
      Real.log (1 + (weightedEngagement p m : ℝ)))), ?_, rfl⟩
    have h1 : (0:ℚ) ≤ metricValue m p.primaryKey := le_max_left 0 _
    have h2 : (0:ℚ) ≤ metricValue m p.secondaryKey := le_max_left 0 _
    have hw : (0:ℚ) ≤ weightedEngagement p m := by
      unfold weightedEngagement
      have h3 := mul_nonneg (by norm_num : (0:ℚ) ≤ 7/10) h1
      have h4 := mul_nonneg (by norm_num : (0:ℚ) ≤ 3/10) h2
      linarith
    have hlog : 0 ≤ Real.log (1 + (weightedEngagement p m : ℝ)) := by
      apply Real.log_nonneg
      have hcast : (0:ℝ) ≤ (weightedEngagement p m : ℝ) := by exact_mod_cast hw
      linarith
    have hnc : (0:ℝ) ≤ (p.normConst : ℝ) := by
      cases p <;> norm_num [Platform.normConst]
    have hx : (0:ℝ) ≤ 10 * ((p.normConst : ℝ) *
        Real.log (1 + (weightedEngagement p m : ℝ))) := by
      have h5 := mul_nonneg hnc hlog
      linarith
    rw [round_eq]
    apply Int.floor_nonneg.mpr
    linarith
  · intro p
    norm_num [engineScore, roundTo1, weightedEngagement, metricValue, Real.log_one]

end SignalScout
